import Mathlib

/-!
Verification development for the gitin prompt engine
(src/prompt/async_list.go and src/prompt/renderer.go).

Embedding conventions:
* Go `int` fields become `Int`; slice lengths are `Nat` and are cast where compared.
* Go slices become `List`; a Go map becomes an association list with
  overwrite-on-insert semantics (`mapInsert`).
* A Go slice access that can panic is rendered as an `Option` result, `none`
  standing for the runtime panic.
* The channels `itemsChan` and `update` and the mutex of `AsyncList` are not
  state of the scrolling algebra; the population goroutine of `NewAsyncList`
  is embedded separately as `drainStep`/`drainRun`, with the `update` channel
  rendered as a send counter.
-/

namespace Gitin

/-- Modelled from the spec: the `NotFound` sentinel constant of the prompt
package is declared in the synchronous-list source file, which is not part of
the sources given here.  `Items` uses it as the "no active index" answer and
`mainloop` indexes the window only when the answer differs from it, so it is a
negative value, distinct from every valid window position; we fix `-1`. -/
def NotFound : Int := -1

/-- Modelled from the spec: the external fuzzy matcher collaborator (spec §6).
Given a query and the backing collection it returns ranked matches, each
carrying a valid index into the collection (`Fin items.length`, mirroring
`fuzzy.Match.Index`) together with the matched character offsets
(`fuzzy.Match.MatchedIndexes`).  Ranking is the matcher's own contract, so the
embedding quantifies over it. -/
def Matcher (α : Type) : Type :=
  (q : String) → (items : List α) → List (Fin items.length × List Nat)

/-- State of `AsyncList` (src/prompt/async_list.go, lines 15–26).  The
channel, mutex and update fields are not part of the scrolling state and are
handled by the drain model below. -/
structure AsyncList (α : Type) where
  items : List α
  scope : List α
  matchIdx : List (α × List Nat)
  cursor : Int
  size : Int
  start : Int
  find : String

/-- Overwrite-or-append insertion into an association list: the rendering of a
Go map assignment `m[k] = v`. -/
def mapInsert [DecidableEq α] (m : List (α × List Nat)) (k : α) (v : List Nat) :
    List (α × List Nat) :=
  if m.any fun p => p.1 = k then m.map fun p => if p.1 = k then (k, v) else p
  else m ++ [(k, v)]

/-- Go `strings.Trim(term, " ")`: strip leading and trailing space characters. -/
def trimSpaces (s : String) : String :=
  String.mk (((s.toList.dropWhile fun c => c = ' ').reverse.dropWhile
    fun c => c = ' ').reverse)

/-- Go slice read `xs[i]` with an `Int` index: `none` is the out-of-range panic. -/
def sliceGet? (xs : List α) (i : Int) : Option α :=
  if 0 ≤ i then xs.get? i.toNat else none

namespace AsyncList

/-- `AsyncList.Prev` (lines 76–84): move the cursor back one item, then pull
the window start up to it. -/
def Prev (l : AsyncList α) : AsyncList α :=
  let c := if l.cursor > 0 then l.cursor - 1 else l.cursor
  let s := if l.start > c then c else l.start
  { l with cursor := c, start := s }

/-- `AsyncList.Next` (lines 154–164): move the cursor forward one item, then
push the window start down so the cursor stays visible. -/
def Next (l : AsyncList α) : AsyncList α :=
  let mx : Int := (l.scope.length : Int) - 1
  let c := if l.cursor < mx then l.cursor + 1 else l.cursor
  let s := if l.start + l.size ≤ c then c - l.size + 1 else l.start
  { l with cursor := c, start := s }

/-- `AsyncList.PageUp` (lines 168–181). -/
def PageUp (l : AsyncList α) : AsyncList α :=
  let s := if l.start - l.size < 0 then 0 else l.start - l.size
  let c := if s < l.cursor then s else l.cursor
  { l with start := s, cursor := c }

/-- `AsyncList.PageDown` (lines 185–205). -/
def PageDown (l : AsyncList α) : AsyncList α :=
  let len : Int := (l.scope.length : Int)
  let s :=
    if len < l.size then 0
    else if l.start + l.size > len - l.size then len - l.size
    else l.start + l.size
  let c :=
    if s = l.cursor then len - 1
    else if s > l.cursor then s
    else l.cursor
  { l with start := s, cursor := c }

/-- `AsyncList.SetStart` (lines 123–132). -/
def SetStart (l : AsyncList α) (i : Int) : AsyncList α :=
  let j := if i < 0 then 0 else i
  if j > l.cursor then { l with start := l.cursor } else { l with start := j }

/-- `AsyncList.SetCursor` (lines 136–151). -/
def SetCursor (l : AsyncList α) (i : Int) : AsyncList α :=
  let mx : Int := (l.scope.length : Int) - 1
  let j := if i ≥ mx then mx else i
  let c := if j < 0 then 0 else j
  let s :=
    if l.start > c then c
    else if l.start + l.size ≤ c then c - l.size + 1
    else l.start
  { l with cursor := c, start := s }

/-- Private `AsyncList.search` (lines 102–115): an empty term restores the
scope to the backing items; otherwise the matcher result is folded into a
fresh scope (in rank order) and a fresh matches map. -/
def searchLow [DecidableEq α] (matcher : Matcher α) (l : AsyncList α)
    (q : String) : AsyncList α :=
  if q.length = 0 then { l with scope := l.items }
  else
    let results := matcher q l.items
    { l with
      matchIdx := results.foldl (fun m r => mapInsert m (l.items.get r.1) r.2) []
      scope := results.map fun r => l.items.get r.1 }

/-- `AsyncList.Search` (lines 87–93): trim the term, reset cursor and start,
remember the term, then run the private search. -/
def Search [DecidableEq α] (matcher : Matcher α) (l : AsyncList α)
    (q : String) : AsyncList α :=
  let t := trimSpaces q
  searchLow matcher { l with cursor := 0, start := 0, find := t } t

/-- `AsyncList.CancelSearch` (lines 96–100). -/
def CancelSearch (l : AsyncList α) : AsyncList α :=
  { l with cursor := 0, start := 0, scope := l.items }

/-- `AsyncList.CanPageDown` (lines 208–211). -/
def CanPageDown (l : AsyncList α) : Prop :=
  l.start + l.size < (l.scope.length : Int)

/-- `AsyncList.CanPageUp` (lines 214–216). -/
def CanPageUp (l : AsyncList α) : Prop :=
  l.start > 0

/-- Helper for `AsyncList.Index` (lines 225–229): the Go loop
`for i, item := range items { if item == selected { return i } }` followed by
`return NotFound`, with `i` carried as the accumulator. -/
def indexFrom [DecidableEq α] (selected : α) : List α → Int → Int
  | [], _ => NotFound
  | x :: xs, i => if x = selected then i else indexFrom selected xs (i + 1)

/-- `AsyncList.Index` (lines 219–232).  `scope[cursor]` panics (here: `none`)
when the cursor is outside the non-empty scope. -/
def Index [DecidableEq α] (l : AsyncList α) : Option Int :=
  if (l.scope.length : Int) ≤ 0 then some 0
  else if h : 0 ≤ l.cursor ∧ l.cursor.toNat < l.scope.length then
    some (indexFrom (l.scope.get ⟨l.cursor.toNat, h.2⟩) l.items 0)
  else none

/-- `AsyncList.Items` (lines 236–256).  The Go loop
`for i, j := l.start, 0; i < end; i, j = i+1, j+1` collects
`scope[start], …, scope[end-1]` — rendered as `drop`/`take` — and records the
window position `j = cursor - start` exactly when `start ≤ cursor < end`.
The loop's only possible panic is reading `scope[i]` with a negative first
index, i.e. when `start < 0` and the loop runs at all. -/
def Items (l : AsyncList α) : Option (List α × Int) :=
  let mx : Int := (l.scope.length : Int)
  let stop := if l.start + l.size > mx then mx else l.start + l.size
  if l.start < 0 ∧ l.start < stop then none
  else
    some ((l.scope.drop l.start.toNat).take (stop - l.start).toNat,
      if l.start ≤ l.cursor ∧ l.cursor < stop then l.cursor - l.start
      else NotFound)

end AsyncList

/-- The list state `NewAsyncList` hands back after validating its arguments
(lines 37–45): empty items and scope, cursor and start at zero. -/
def initList (size : Int) : AsyncList α :=
  { items := [], scope := [], matchIdx := [], cursor := 0, size := size,
    start := 0, find := "" }

/-- Spec §3 invariants 1 and 2 for a list state:
`0 ≤ Start ≤ Cursor ≤ len(Scope)-1` (both `0` when the scope is empty) and
`Cursor - Start < VisibleSize`. -/
def Inv (l : AsyncList α) : Prop :=
  0 ≤ l.start ∧ l.start ≤ l.cursor ∧
  (l.scope.length = 0 → l.cursor = 0 ∧ l.start = 0) ∧
  (l.scope.length ≠ 0 → l.cursor ≤ (l.scope.length : Int) - 1) ∧
  l.cursor - l.start < l.size

instance (l : AsyncList α) : Decidable (Inv l) := by
  unfold Inv; infer_instance

/-- One possible effect of the population goroutine on the list state as seen
by the scrolling operations: append a received item to `items` only. -/
def feedI (l : AsyncList α) (v : α) : AsyncList α :=
  { l with items := l.items ++ [v] }

/-- The other possible effect of the population goroutine: append a received
item to `items` and to the scope snapshot. -/
def feedB (l : AsyncList α) (v : α) : AsyncList α :=
  { l with items := l.items ++ [v], scope := l.scope ++ [v] }

/-- List states reachable from construction through the public operations,
with the population goroutine abstracted by the two `feed` steps (each drained
item is appended to `items`, and sometimes also to the scope snapshot). -/
inductive Reachable [DecidableEq α] : AsyncList α → Prop
  | construct (size : Int) (h : 1 ≤ size) : Reachable (initList size)
  | prev {l : AsyncList α} : Reachable l → Reachable l.Prev
  | next {l : AsyncList α} : Reachable l → Reachable l.Next
  | pageUp {l : AsyncList α} : Reachable l → Reachable l.PageUp
  | pageDown {l : AsyncList α} : Reachable l → Reachable l.PageDown
  | setCursor {l : AsyncList α} (i : Int) : Reachable l → Reachable (l.SetCursor i)
  | setStart {l : AsyncList α} (i : Int) : Reachable l → Reachable (l.SetStart i)
  | search {l : AsyncList α} (matcher : Matcher α) (q : String) :
      Reachable l → Reachable (l.Search matcher q)
  | cancelSearch {l : AsyncList α} : Reachable l → Reachable l.CancelSearch
  | feedItem {l : AsyncList α} (v : α) : Reachable l → Reachable (feedI l v)
  | feedBoth {l : AsyncList α} (v : α) : Reachable l → Reachable (feedB l v)

/-- State of the population goroutine of `NewAsyncList` (lines 47–65) as far
as it is observable: the `items` and `scope` slices it writes, the number of
sends on the `update` channel, and its local `flush` counter and `done` flag.
Stream values are `Option α`, `none` standing for an untyped Go `nil`. -/
structure DrainState (α : Type) where
  items : List (Option α)
  scope : List (Option α)
  updates : Nat
  flush : Int
  done : Bool

/-- `addItem` (lines 69–73): append unless the value is nil. -/
def addItem (items : List (Option α)) (v : Option α) : List (Option α) :=
  if v.isSome then items ++ [v] else items

/-- One iteration of the goroutine's `for val := range items` body
(lines 50–63): `addItem`; notify and reset `flush` when `flush > 200`; append
to the scope snapshot while `flush < size` and the snapshot is not frozen
(setting `done` when `flush == size`, a condition tested under `flush < size`);
finally increment `flush`. -/
def drainStep (size : Int) (st : DrainState α) (val : Option α) : DrainState α :=
  let st := { st with items := addItem st.items val }
  let st := if st.flush > 200 then { st with updates := st.updates + 1, flush := 0 }
    else st
  let st :=
    if st.flush < size ∧ st.done = false then
      let st := { st with scope := st.scope ++ [val] }
      if st.flush = size then { st with done := true } else st
    else st
  { st with flush := st.flush + 1 }

/-- The whole population task (lines 47–65): drain every streamed value, then
send one final notification after the stream closes. -/
def drainRun (size : Int) (vals : List (Option α)) : DrainState α :=
  let fin := vals.foldl (drainStep size) ⟨[], [], 0, 0, false⟩
  { fin with updates := fin.updates + 1 }

/-- Modelled from the spec: the named key codes of the terminal driver (the
repository's `term` package, not among the given sources).  Only their
distinctness matters to the engine; control codes use their ASCII values and
the directional keys use private-use code points. -/
def ArrowUp : Char := Char.ofNat 0xE000

/-- Modelled from the spec: see `ArrowUp`. -/
def ArrowDown : Char := Char.ofNat 0xE001

/-- Modelled from the spec: see `ArrowUp`. -/
def ArrowLeft : Char := Char.ofNat 0xE002

/-- Modelled from the spec: see `ArrowUp`. -/
def ArrowRight : Char := Char.ofNat 0xE003

/-- Modelled from the spec: see `ArrowUp`. -/
def Enter : Char := Char.ofNat 13

/-- Modelled from the spec: see `ArrowUp`. -/
def NewLine : Char := Char.ofNat 10

/-- Modelled from the spec: see `ArrowUp`. -/
def Backspace : Char := Char.ofNat 8

/-- Modelled from the spec: see `ArrowUp`. -/
def Backspace2 : Char := Char.ofNat 127

/-- Modelled from the spec: see `ArrowUp`. -/
def KeyCtrlU : Char := Char.ofNat 21

/-- Modelled from the spec: see `ArrowUp`. -/
def KeyCtrlC : Char := Char.ofNat 3

/-- Modelled from the spec: see `ArrowUp`. -/
def KeyCtrlD : Char := Char.ofNat 4

/-- `KeyBinding` (lines 294–299).  A handler is an external collaborator; its
observable outcome is the error it returns (`none` = nil). -/
structure KeyBinding (α : Type) where
  Key : Char
  Display : String
  Handler : α → Option String
  Desc : String

/-- The engine state of `Prompt` (lines 329–356) that the key-dispatch rules
read and write: the composed list, the handler registry, the mode flags and
the live query.  Renderers, writers, channels and the hold flag are I/O and
are outside the embedding. -/
structure Prompt (α : Type) where
  list : AsyncList α
  keyBindings : List (KeyBinding α)
  selectionHandler : α → Option String
  vim : Bool
  inputMode : Bool
  helpMode : Bool
  input : String

/-- Go `utf8.DecodeLastRuneInString` + reslice (lines 576–577): drop the last
rune of the query. -/
def dropLastChar (s : String) : String :=
  String.mk s.toList.dropLast

namespace Prompt

/-- `Prompt.onKey` (lines 555–608), the default key handler.  The result is
the updated engine state together with the returned error (`none` = nil);
an outer `none` is a runtime panic inside the handler. -/
def onKey [DecidableEq α] (matcher : Matcher α) (p : Prompt α) (key : Char) :
    Option (Prompt α × Option String) :=
  if p.helpMode then some ({ p with helpMode := false }, none)
  else if key = ArrowUp then some ({ p with list := p.list.Prev }, none)
  else if key = ArrowDown then some ({ p with list := p.list.Next }, none)
  else if key = ArrowLeft then some ({ p with list := p.list.PageDown }, none)
  else if key = ArrowRight then some ({ p with list := p.list.PageUp }, none)
  else if key = '/' then some ({ p with inputMode := !p.inputMode }, none)
  else if p.inputMode then
    let p :=
      if key = Backspace ∨ key = Backspace2 then
        { p with input := dropLastChar p.input }
      else if key = KeyCtrlU then { p with input := "" }
      else { p with input := p.input.push key }
    some ({ p with list := p.list.Search matcher p.input }, none)
  else if key = '?' then some ({ p with helpMode := !p.helpMode }, none)
  else if p.vim ∧ key = 'k' then some ({ p with list := p.list.Prev }, none)
  else if p.vim ∧ key = 'j' then some ({ p with list := p.list.Next }, none)
  else if p.vim ∧ key = 'h' then some ({ p with list := p.list.PageDown }, none)
  else if p.vim ∧ key = 'l' then some ({ p with list := p.list.PageUp }, none)
  else
    match p.list.Items with
    | none => none
    | some (items, idx) =>
      if idx = NotFound then some (p, none)
      else
        match p.keyBindings.find? fun kb => kb.Key = key with
        | some kb =>
          match sliceGet? items idx with
          | none => none
          | some it => some (p, kb.Handler it)
        | none => some (p, none)

/-- `Prompt.Selection` (lines 633–639). -/
def Selection [DecidableEq α] (p : Prompt α) : Option (Except String α) :=
  match p.list.Items with
  | none => none
  | some (items, idx) =>
    if idx = NotFound then some (Except.error "item not found")
    else
      match sliceGet? items idx with
      | none => none
      | some it => some (Except.ok it)

end Prompt

/-- Outcome of one trip through the `mainloop` event dispatch (lines 481–501):
the loop continues with a new engine state, or breaks out of `mainloop`
returning `err`, or the process panics. -/
inductive StepResult (α : Type) where
  | cont (p : Prompt α)
  | quit (err : Option String)
  | crash

namespace Prompt

/-- The `mainloop` dispatch of one received key event (lines 486–501):
Ctrl-C/Ctrl-D break the loop; Enter/NewLine consult `Items()` and invoke the
selection handler only when an active item exists, breaking the loop exactly
when the handler fails; every other key goes to `onKey`, whose non-nil error
also breaks the loop. -/
def mainloopKey [DecidableEq α] (matcher : Matcher α) (p : Prompt α)
    (key : Char) : StepResult α :=
  if key = KeyCtrlC ∨ key = KeyCtrlD then .quit none
  else if key = Enter ∨ key = NewLine then
    match p.list.Items with
    | none => .crash
    | some (items, idx) =>
      if idx = NotFound then .cont p
      else
        match sliceGet? items idx with
        | none => .crash
        | some it =>
          match p.selectionHandler it with
          | some e => .quit (some e)
          | none => .cont p
  else
    match p.onKey matcher key with
    | none => .crash
    | some (_, some e) => .quit (some e)
    | some (p2, none) => .cont p2

end Prompt

/-- Ghost invariant of the drain loop: after `j` received values the local
`flush` counter and the number of periodic `update` sends satisfy
`j = 201 * updates + flush` with `1 ≤ flush ≤ 201` (or the initial state). -/
def goodDrain (j : Nat) (st : DrainState α) : Prop :=
  (j : Int) = 201 * st.updates + st.flush ∧
  (1 ≤ st.flush ∧ st.flush ≤ 201 ∨ (j = 0 ∧ st.updates = 0 ∧ st.flush = 0))

/-- A matcher that never matches, standing in for the external fuzzy matcher
in engine-level scenarios where no search is performed. -/
def matcher0 : Matcher Nat := fun _ _ => []

/-- A matcher whose result set contains the first backing item with matched
offset 0 — the shape `fuzzy.FindFrom` returns for a one-item collection whose
text contains the query. -/
def matcherOne : Matcher Nat := fun _ items =>
  match items with
  | [] => []
  | _ :: xs => [(⟨0, Nat.succ_pos xs.length⟩, [0])]

/-- A state reached from construction by streaming six items, cancelling
search (scope = items), then restoring a cursor far from a start of 0:
`SetStart` leaves `Cursor - Start = 4 ≥ VisibleSize = 2`. -/
def listC2 : AsyncList Nat :=
  ((feedB (feedB (feedB (feedB (feedB (feedB (initList 2) 0) 1) 2) 3) 4)
    5).SetCursor 4).SetStart 0

/-- A non-empty list with an empty scope (as after a search with no match):
`Index` answers `0` on it. -/
def listC3 : AsyncList Nat :=
  { items := [7], scope := [], matchIdx := [], cursor := 0, size := 3,
    start := 0, find := "" }

/-- A one-item list used for the search/cancel scenarios. -/
def listC6 : AsyncList Nat :=
  { items := [5], scope := [5], matchIdx := [], cursor := 0, size := 1,
    start := 0, find := "" }

/-- A ten-item list scrolled to its end: `Start = 7`, `Cursor = 9`,
`VisibleSize = 3` — an invariant-satisfying state. -/
def listC9 : AsyncList Nat :=
  { items := List.range 10, scope := List.range 10, matchIdx := [],
    cursor := 9, size := 3, start := 7, find := "" }

/-- An engine state over a still-empty list (`Items()` reports `NotFound`),
with a selection handler that would fail loudly if it were ever invoked. -/
def promptC7 : Prompt Nat :=
  { list := initList 5, keyBindings := [],
    selectionHandler := fun _ => some "selected", vim := true,
    inputMode := false, helpMode := false, input := "" }

/-- A one-item list in its initial position. -/
def listOne : AsyncList Nat :=
  { items := [3], scope := [3], matchIdx := [], cursor := 0, size := 1,
    start := 0, find := "" }

/-- An engine state in Help mode over a one-item list, with a failing
selection handler. -/
def promptC8 : Prompt Nat :=
  { list := listOne, keyBindings := [],
    selectionHandler := fun _ => some "boom", vim := true,
    inputMode := false, helpMode := true, input := "" }

/-- An engine state over an empty-scope list carrying a key binding for `x`
whose handler fails: pressing `x` must not reach that handler. -/
def promptC10 : Prompt Nat :=
  { list := initList 5,
    keyBindings := [⟨'x', "x", fun _ => some "bound handler failure", "test"⟩],
    selectionHandler := fun _ => none, vim := true, inputMode := false,
    helpMode := false, input := "" }

/-- Intermediate drain states for the 202-item stream evaluation: after 60,
120 and 180 identical items (`flush` equals the item count, one scope entry),
and after all 202 (one periodic notification fired at item 201, which was also
appended to the scope snapshot). -/
def dA : DrainState Nat := ⟨List.replicate 60 (some 0), [some 0], 0, 60, false⟩

/-- See `dA`. -/
def dB : DrainState Nat := ⟨List.replicate 120 (some 0), [some 0], 0, 120, false⟩

/-- See `dA`. -/
def dC : DrainState Nat := ⟨List.replicate 180 (some 0), [some 0], 0, 180, false⟩

/-- See `dA`. -/
def dD : DrainState Nat :=
  ⟨List.replicate 202 (some 0), [some 0, some 0], 1, 1, false⟩

/-! Invariant preservation of the scrolling operations (claim C1 context). -/

theorem Inv_Prev (l : AsyncList α) (hs : 1 ≤ l.size) (h : Inv l) : Inv l.Prev := by
  unfold Inv AsyncList.Prev at *
  dsimp only at *
  split_ifs <;> omega

theorem Inv_Next (l : AsyncList α) (hs : 1 ≤ l.size) (h : Inv l) : Inv l.Next := by
  unfold Inv AsyncList.Next at *
  dsimp only at *
  split_ifs <;> omega

theorem Inv_PageUp (l : AsyncList α) (hs : 1 ≤ l.size) (h : Inv l) : Inv l.PageUp := by
  unfold Inv AsyncList.PageUp at *
  dsimp only at *
  split_ifs <;> omega

theorem Inv_PageDown (l : AsyncList α) (hs : 1 ≤ l.size) (h : Inv l)
    (hne : l.scope.length ≠ 0) : Inv l.PageDown := by
  unfold Inv AsyncList.PageDown at *
  dsimp only at *
  split_ifs <;> omega

theorem PageDown_empty (l : AsyncList α) (hs : 1 ≤ l.size) (h : Inv l)
    (he : l.scope.length = 0) : l.PageDown.cursor = -1 := by
  unfold Inv at h
  unfold AsyncList.PageDown
  dsimp only
  split_ifs <;> omega

theorem Inv_SetCursor (l : AsyncList α) (i : Int) (hs : 1 ≤ l.size) (h : Inv l) :
    Inv (l.SetCursor i) := by
  unfold Inv AsyncList.SetCursor at *
  dsimp only at *
  split_ifs <;> omega

theorem SetStart_bounds (l : AsyncList α) (i : Int) (h : Inv l) :
    0 ≤ (l.SetStart i).start ∧ (l.SetStart i).start ≤ (l.SetStart i).cursor := by
  unfold Inv at h
  unfold AsyncList.SetStart
  dsimp only
  split_ifs <;> dsimp only <;> omega

theorem Inv_restore (l : AsyncList α) (c s : Int) (hs : 1 ≤ l.size) (h : Inv l)
    (h0 : 0 ≤ s) (hcs : c - s < l.size) : Inv ((l.SetCursor c).SetStart s) := by
  unfold Inv AsyncList.SetCursor AsyncList.SetStart at *
  dsimp only at *
  split_ifs <;> dsimp only at * <;> omega

theorem Inv_Search [DecidableEq α] (matcher : Matcher α) (l : AsyncList α)
    (q : String) (hs : 1 ≤ l.size) : Inv (l.Search matcher q) := by
  unfold Inv AsyncList.Search AsyncList.searchLow
  dsimp only
  split_ifs <;> dsimp only <;> omega

theorem Inv_CancelSearch (l : AsyncList α) (hs : 1 ≤ l.size) :
    Inv l.CancelSearch := by
  unfold Inv AsyncList.CancelSearch
  dsimp only
  omega

/-- C1, counterexample.  The claim is false as stated: immediately after
construction the scope is empty, and a single `PageDown()` — reachable through
the listed public operations — drives `Cursor` to `-1`, violating
`0 ≤ Start ≤ Cursor` (both `0` when the scope is empty). -/
theorem C1_counterexample :
    Reachable ((initList 1 : AsyncList Nat).PageDown) ∧
    ¬ Inv ((initList 1 : AsyncList Nat).PageDown) ∧
    ((initList 1 : AsyncList Nat).PageDown).cursor = -1 :=
  ⟨Reachable.pageDown (Reachable.construct 1 (by norm_num)), by decide, by decide⟩

/-- C1 (amended).  With `VisibleSize ≥ 1`, every public operation preserves
invariants `0 ≤ Start ≤ Cursor ≤ len(Scope)-1` (both 0 on empty scope) and
`Cursor - Start < VisibleSize`, with exactly two exceptions: `PageDown` on an
empty scope sets `Cursor` to `-1`, and `SetStart` guarantees only
`0 ≤ Start ≤ Cursor`, not the window bound.  The `StateSnapshot` restore path
`SetCursor(c)` then `SetStart(s)` does preserve both invariants whenever
`0 ≤ s` and `c - s < VisibleSize`, which holds for every snapshot captured
from an invariant state. -/
theorem C1_thm {α : Type} [DecidableEq α] :
    (∀ l : AsyncList α, 1 ≤ l.size → Inv l → Inv l.Prev) ∧
    (∀ l : AsyncList α, 1 ≤ l.size → Inv l → Inv l.Next) ∧
    (∀ l : AsyncList α, 1 ≤ l.size → Inv l → Inv l.PageUp) ∧
    (∀ l : AsyncList α, 1 ≤ l.size → Inv l → l.scope.length ≠ 0 →
      Inv l.PageDown) ∧
    (∀ l : AsyncList α, 1 ≤ l.size → Inv l → l.scope.length = 0 →
      l.PageDown.cursor = -1) ∧
    (∀ (l : AsyncList α) (i : Int), 1 ≤ l.size → Inv l → Inv (l.SetCursor i)) ∧
    (∀ (l : AsyncList α) (i : Int), Inv l →
      0 ≤ (l.SetStart i).start ∧ (l.SetStart i).start ≤ (l.SetStart i).cursor) ∧
    (∀ (matcher : Matcher α) (l : AsyncList α) (q : String), 1 ≤ l.size →
      Inv (l.Search matcher q)) ∧
    (∀ l : AsyncList α, 1 ≤ l.size → Inv l.CancelSearch) ∧
    (∀ (l : AsyncList α) (c s : Int), 1 ≤ l.size → Inv l → 0 ≤ s →
      c - s < l.size → Inv ((l.SetCursor c).SetStart s)) :=
  ⟨Inv_Prev, Inv_Next, Inv_PageUp, Inv_PageDown, PageDown_empty, Inv_SetCursor,
    SetStart_bounds, Inv_Search, Inv_CancelSearch, Inv_restore⟩

/-- C1, witness: the amended theorem applied at a concrete input — the
snapshot restore path on the six-item scope of `listC2`'s ancestor state. -/
theorem C1_witness :
    1 ≤ (feedB (initList 2 : AsyncList Nat) 0).size ∧
    Inv (feedB (initList 2 : AsyncList Nat) 0) ∧
    Inv (((feedB (initList 2 : AsyncList Nat) 0).SetCursor 0).SetStart 0) :=
  ⟨by decide, by decide,
    (C1_thm (α := Nat)).2.2.2.2.2.2.2.2.2 (feedB (initList 2) 0) 0 0
      (by decide) (by decide) (by decide) (by decide)⟩

/-- C2, counterexample.  `listC2` is reachable through the public operations
(stream six items, restore cursor 4 then start 0); its scope is non-empty, yet
`Items()` reports `NotFound`, because the restore left the cursor outside the
window — so "NotFound exactly when Scope is empty" fails for this list state. -/
theorem C2_counterexample :
    Reachable listC2 ∧ listC2.Items = some ([0, 1], NotFound) ∧
    listC2.scope ≠ [] :=
  ⟨Reachable.setStart 0 (Reachable.setCursor 4 (Reachable.feedBoth 5
      (Reachable.feedBoth 4 (Reachable.feedBoth 3 (Reachable.feedBoth 2
        (Reachable.feedBoth 1 (Reachable.feedBoth 0
          (Reachable.construct 2 (by norm_num))))))))),
    by decide, by decide⟩

/-- C2 (amended).  For every list state satisfying the documented invariants
(with `VisibleSize ≥ 1`), `Items()` does not panic, returns a window of at
most `VisibleSize` consecutive scope entries starting at `Start`, and the
active index is `NotFound` exactly when the scope is empty. -/
theorem C2_thm (l : AsyncList α) (hs : 1 ≤ l.size) (h : Inv l) :
    l.Items ≠ none ∧
    ∀ w a, l.Items = some (w, a) →
      (w.length : Int) ≤ l.size ∧
      (∀ j : Nat, j < w.length → w.get? j = l.scope.get? (l.start.toNat + j)) ∧
      (a = NotFound ↔ l.scope.length = 0) := by
  obtain ⟨h1, h2, h3, h4, h5⟩ := h
  have hne : ¬ (l.start < 0 ∧ l.start <
      (if l.start + l.size > (l.scope.length : Int) then (l.scope.length : Int)
        else l.start + l.size)) := by
    rintro ⟨hc, -⟩; omega
  constructor
  · unfold AsyncList.Items
    dsimp only
    rw [if_neg hne]
    exact Option.some_ne_none _
  · intro w a hwa
    unfold AsyncList.Items at hwa
    dsimp only at hwa
    rw [if_neg hne, Option.some.injEq, Prod.mk.injEq] at hwa
    obtain ⟨hw, ha⟩ := hwa
    subst hw
    subst ha
    refine ⟨?_, ?_, ?_⟩
    · simp only [List.length_take, List.length_drop]
      split_ifs <;> omega
    · intro j hj
      simp only [List.length_take, List.length_drop] at hj
      rw [List.get?_take (by omega), List.get?_drop]
    · split_ifs <;> simp only [NotFound] <;> constructor <;> intro <;>
        first | trivial | omega

/-- C2, witness: the amended theorem applied to the one-item list in its
initial position, where the window is `[3]` with active index `0`. -/
theorem C2_witness :
    1 ≤ listOne.size ∧ Inv listOne ∧ listOne.Items = some ([3], 0) ∧
    (((0 : Int) = NotFound ↔ listOne.scope.length = 0) ∧
      (([3] : List Nat).length : Int) ≤ listOne.size) :=
  ⟨by decide, by decide, by decide,
    (C2_thm listOne (by decide) (by decide)).2 [3] 0 (by decide) |>.2.2,
    (C2_thm listOne (by decide) (by decide)).2 [3] 0 (by decide) |>.1⟩

/-! Characterization of the `Index` search loop (claim C3 context). -/

theorem indexFrom_of_not_mem [DecidableEq α] (a : α) (xs : List α) (k : Int)
    (h : a ∉ xs) : AsyncList.indexFrom a xs k = NotFound := by
  induction xs generalizing k with
  | nil => rfl
  | cons x t ih =>
    simp only [List.mem_cons, not_or] at h
    unfold AsyncList.indexFrom
    rw [if_neg fun e => h.1 e.symm]
    exact ih (k + 1) h.2

theorem indexFrom_first [DecidableEq α] (a : α) (xs : List α) (j : Nat) (k : Int)
    (hj : xs.get? j = some a) (hmin : ∀ m, m < j → xs.get? m ≠ some a) :
    AsyncList.indexFrom a xs k = k + j := by
  induction xs generalizing j k with
  | nil => simp at hj
  | cons x t ih =>
    cases j with
    | zero =>
      rw [List.get?_cons_zero] at hj
      unfold AsyncList.indexFrom
      rw [if_pos (by injection hj)]
      simp
    | succ j =>
      have hx : ¬ x = a := by
        have h0 := hmin 0 (Nat.succ_pos j)
        rw [List.get?_cons_zero] at h0
        exact fun e => h0 (by rw [e])
      unfold AsyncList.indexFrom
      rw [if_neg hx,
        ih j (k + 1) (by rwa [List.get?_cons_succ] at hj)
          (fun m hm => by
            have := hmin (m + 1) (Nat.succ_lt_succ hm)
            rwa [List.get?_cons_succ] at this)]
      push_cast
      ring

theorem Index_eq [DecidableEq α] (l : AsyncList α) (a : α) (hc : 0 ≤ l.cursor)
    (hget : l.scope.get? l.cursor.toNat = some a) :
    l.Index = some (AsyncList.indexFrom a l.items 0) := by
  obtain ⟨hlt, hsel⟩ := List.get?_eq_some.mp hget
  unfold AsyncList.Index
  rw [if_neg (by omega), dif_pos ⟨hc, hlt⟩]
  exact congrArg some (congrArg (fun z => AsyncList.indexFrom z l.items 0) hsel)

/-- C3, counterexample.  On an empty scope (a searched-down list with no
matches) `Index()` returns `0`, not `NotFound`: the claim's error answer is
wrong at this input. -/
theorem C3_counterexample :
    listC3.scope = [] ∧ listC3.Index = some 0 ∧ (0 : Int) ≠ NotFound := by
  refine ⟨rfl, by decide, by decide⟩

/-- C3 (amended).  When the scope is non-empty and the cursor in range,
`Index()` returns the absolute index in `Items` of the *first* occurrence of
the item under the cursor, or `NotFound` when that item does not occur in
`Items`; when the scope is empty it returns `0`, not `NotFound`. -/
theorem C3_thm {α : Type} [DecidableEq α] :
    (∀ l : AsyncList α, l.scope.length = 0 → l.Index = some 0) ∧
    (∀ (l : AsyncList α) (a : α), 0 ≤ l.cursor →
      l.scope.get? l.cursor.toNat = some a →
      (a ∉ l.items → l.Index = some NotFound) ∧
      (∀ j : Nat, l.items.get? j = some a →
        (∀ m, m < j → l.items.get? m ≠ some a) →
          l.Index = some (j : Int))) := by
  constructor
  · intro l hl
    unfold AsyncList.Index
    rw [if_pos (by omega)]
  · intro l a hc hget
    constructor
    · intro hmem
      rw [Index_eq l a hc hget, indexFrom_of_not_mem a l.items 0 hmem]
    · intro j hj hmin
      rw [Index_eq l a hc hget, indexFrom_first a l.items j 0 hj hmin]
      norm_num

/-- C3, witness: the amended theorem applied to the one-item list, whose
cursor item `3` first occurs in `Items` at absolute index `0`. -/
theorem C3_witness :
    listOne.scope.get? (0 : Int).toNat = some 3 ∧
    listOne.items.get? 0 = some 3 ∧ listOne.Index = some ((0 : Nat) : Int) :=
  ⟨by decide, by decide,
    ((C3_thm (α := Nat)).2 listOne 3 (by decide) (by decide)).2 0 (by decide)
      (fun m hm => absurd hm (Nat.not_lt_zero m))⟩

/-! Drain-loop accounting (claims C4 and C5 context). -/

theorem goodDrain_step (size : Int) (st : DrainState α) (v : Option α) (j : Nat)
    (h : goodDrain j st) : goodDrain (j + 1) (drainStep size st v) := by
  unfold goodDrain drainStep addItem at *
  dsimp only at *
  split_ifs <;> dsimp only at * <;> omega

theorem goodDrain_fold (size : Int) (vals : List (Option α)) (st : DrainState α)
    (j : Nat) (h : goodDrain j st) :
    goodDrain (j + vals.length) (vals.foldl (drainStep size) st) := by
  induction vals generalizing st j with
  | nil => simpa using h
  | cons v t ih =>
    simp only [List.foldl_cons, List.length_cons]
    have step := ih (drainStep size st v) (j + 1) (goodDrain_step size st v j h)
    have harith : j + (t.length + 1) = j + 1 + t.length := by omega
    rw [harith]
    exact step

/-! Piecewise kernel evaluation of the drain loop on a 202-item stream
(the evaluation is split so no single reduction is deep). -/

set_option maxRecDepth 8000 in
theorem drain_chunk1 :
    (List.replicate 60 (some (0 : Nat))).foldl (drainStep 1)
      ⟨[], [], 0, 0, false⟩ = dA := by
  rfl

set_option maxRecDepth 8000 in
theorem drain_chunk2 :
    (List.replicate 60 (some (0 : Nat))).foldl (drainStep 1) dA = dB := by
  rfl

set_option maxRecDepth 8000 in
theorem drain_chunk3 :
    (List.replicate 60 (some (0 : Nat))).foldl (drainStep 1) dB = dC := by
  rfl

set_option maxRecDepth 8000 in
theorem drain_chunk4 :
    (List.replicate 22 (some (0 : Nat))).foldl (drainStep 1) dC = dD := by
  rfl

theorem drain202_scope :
    (drainRun 1 (List.replicate 202 (some (0 : Nat)))).scope =
      [some 0, some 0] := by
  have hsplit : List.replicate 202 (some (0 : Nat)) =
      ((List.replicate 60 (some 0) ++ List.replicate 60 (some 0)) ++
        List.replicate 60 (some 0)) ++ List.replicate 22 (some 0) := by
    rw [← List.replicate_add, ← List.replicate_add, ← List.replicate_add]
  unfold drainRun
  rw [hsplit, List.foldl_append, List.foldl_append, List.foldl_append,
    drain_chunk1, drain_chunk2, drain_chunk3, drain_chunk4]
  rfl

/-- C4.  The drain loop evaluated at the failing input: a stream of 202
identical non-nil items with `VisibleSize = 1`.  The final scope snapshot is
`[item 0, item 201]` — two entries, not the first-`VisibleSize`-items prefix
of the stream and longer than `VisibleSize` — because the `done` freeze is
dead code (`flush == size` is tested inside `flush < size`) and the periodic
`flush` reset at item 201 reopened the snapshot window. -/
theorem C4_thm :
    (drainRun 1 (List.replicate 202 (some (0 : Nat)))).scope =
        [some 0, some 0] ∧
    (drainRun 1 (List.replicate 202 (some (0 : Nat)))).scope ≠
        (List.replicate 202 (some (0 : Nat))).take 1 ∧
    ((drainRun 1 (List.replicate 202 (some (0 : Nat)))).scope).length = 2 := by
  refine ⟨drain202_scope, ?_, ?_⟩
  · rw [drain202_scope]
    decide
  · rw [drain202_scope]
    rfl

/-- Total number of `update` sends of the population task: one while draining
item `201·m` (0-based) for each `m ≥ 1`, plus the single send after the
stream closes. -/
theorem drainRun_updates (size : Int) (vals : List (Option α)) :
    (drainRun size vals).updates = (vals.length - 1) / 201 + 1 := by
  have h := goodDrain_fold size vals ⟨[], [], 0, 0, false⟩ 0
    ⟨by norm_num, Or.inr ⟨rfl, rfl, rfl⟩⟩
  unfold drainRun
  dsimp only
  obtain ⟨ha, hb⟩ := h
  rcases hb with ⟨hf1, hf2⟩ | ⟨hj, hu, hf⟩
  · omega
  · omega

/-- C5, counterexample.  For a stream of 201 items the claim predicts
`floor(201/200) = 1` periodic notification plus one close notification, i.e.
2 sends in total; the code sends only the close notification, because its
first periodic send happens while draining item 201 (0-based), which such a
stream does not have. -/
theorem C5_counterexample :
    (drainRun 1 (List.replicate 201 (some (0 : Nat)))).updates = 1 ∧
    201 / 200 + 1 ≠ 1 := by
  constructor
  · rw [drainRun_updates]
    norm_num
  · norm_num

/-- C5 (amended).  For every stream of `n` values (nil or not) and every
size, the population task sends a periodic notification while draining item
`201·m` (0-based) for each `m ≥ 1` — `⌊(n-1)/201⌋` periodic notifications in
total, none for an empty stream — plus exactly one more when the stream
closes: `⌊(n-1)/201⌋ + 1` sends in total (`Nat` subtraction). -/
theorem C5_thm (size : Int) (vals : List (Option α)) :
    (drainRun size vals).updates = (vals.length - 1) / 201 + 1 :=
  drainRun_updates size vals

/-! Search / CancelSearch and the matches map (claim C6 context). -/

theorem Search_items [DecidableEq α] (matcher : Matcher α) (l : AsyncList α)
    (q : String) : (l.Search matcher q).items = l.items := by
  unfold AsyncList.Search AsyncList.searchLow
  dsimp only
  split_ifs <;> rfl

/-- C6, counterexample.  After `Search("a")` put `(5, [0])` into the matches
map, `CancelSearch()` leaves that map unchanged (it only resets cursor, start
and scope), and a follow-up `Search(" ")` — empty after trimming — also leaves
it unchanged: neither empties MatchIndex. -/
theorem C6_counterexample :
    ((listC6.Search matcherOne "a").CancelSearch).matchIdx = [(5, [0])] ∧
    ((listC6.Search matcherOne "a").CancelSearch).matchIdx ≠ [] ∧
    trimSpaces " " = "" ∧
    ((listC6.Search matcherOne "a").Search matcherOne " ").matchIdx =
      [(5, [0])] := by
  refine ⟨by decide, by decide, by decide, by decide⟩

/-- C6 (amended).  After any `Search`, `CancelSearch()` restores the scope to
exactly `Items` in original order and resets cursor and start to 0, but
leaves the matches map unchanged; likewise `Search` with a query that is
empty after trimming resets the scope to `Items` but leaves the matches map
unchanged. -/
theorem C6_thm [DecidableEq α] (matcher : Matcher α) (l : AsyncList α)
    (q : String) :
    ((l.Search matcher q).CancelSearch).scope = l.items ∧
    ((l.Search matcher q).CancelSearch).cursor = 0 ∧
    ((l.Search matcher q).CancelSearch).start = 0 ∧
    ((l.Search matcher q).CancelSearch).matchIdx =
      (l.Search matcher q).matchIdx ∧
    (trimSpaces q = "" →
      (l.Search matcher q).scope = l.items ∧
      (l.Search matcher q).matchIdx = l.matchIdx) := by
  refine ⟨Search_items matcher l q, rfl, rfl, rfl, fun ht => ?_⟩
  unfold AsyncList.Search AsyncList.searchLow
  dsimp only
  rw [ht]
  exact ⟨rfl, rfl⟩

/-- C6, witness: the amended theorem applied to the one-item list with the
query `"  "`, which is empty after trimming. -/
theorem C6_witness :
    trimSpaces "  " = "" ∧
    (listC6.Search matcherOne "  ").scope = listC6.items ∧
    (listC6.Search matcherOne "  ").matchIdx = listC6.matchIdx ∧
    ((listC6.Search matcherOne "x").CancelSearch).scope = listC6.items :=
  ⟨by decide,
    ((C6_thm matcherOne listC6 "  ").2.2.2.2 (by decide)).1,
    ((C6_thm matcherOne listC6 "  ").2.2.2.2 (by decide)).2,
    (C6_thm matcherOne listC6 "x").1⟩

/-- C9, counterexample.  `listC9` satisfies the invariants: ten items,
`VisibleSize = 3`, `Start = 7`, `Cursor = 9`.  `PageDown()` recomputes
`Start = min(7+3, 10-3) = 7`, which differs from the previous cursor 9, so
the claim requires the cursor to track the new start and become 7 — but the
code leaves the cursor at 9, because it only moves the cursor forward. -/
theorem C9_counterexample :
    Inv listC9 ∧ listC9.PageDown.start = 7 ∧ listC9.PageDown.cursor = 9 ∧
    ((9 : Int) = 7 → False) := by
  refine ⟨by decide, by decide, by decide, by norm_num⟩

/-- C9 (amended).  `PageDown` clamps the new start to
`min(Start + VisibleSize, len(Scope) - VisibleSize)` (or 0 when
`len(Scope) < VisibleSize`); if the new start equals the previous cursor,
the cursor snaps to the last index of the scope; if the new start lies beyond
the previous cursor, the cursor tracks the new start; otherwise — when the
new start stays at or before the previous cursor — the cursor is unchanged.
Scope and items are untouched. -/
theorem C9_thm (l : AsyncList α) :
    l.PageDown.start =
      (if (l.scope.length : Int) < l.size then 0
        else min (l.start + l.size) ((l.scope.length : Int) - l.size)) ∧
    l.PageDown.cursor =
      (if l.PageDown.start = l.cursor then (l.scope.length : Int) - 1
        else if l.PageDown.start > l.cursor then l.PageDown.start
        else l.cursor) ∧
    l.PageDown.scope = l.scope ∧ l.PageDown.items = l.items := by
  unfold AsyncList.PageDown
  dsimp only
  refine ⟨?_, ?_, rfl, rfl⟩ <;> split_ifs <;> omega

/-! Engine dispatch (claims C7, C8, C10 context). -/

/-- C7, counterexample.  Over an empty list window (`Items()` reports
`NotFound`), the Enter key is dispatched to the `idx == NotFound` branch of
`mainloop`, which is a plain `break` out of the `switch`, not
`break mainloop`: the loop continues with the state unchanged and no error —
it does not terminate, so the condition is not treated like a handler
failure. -/
theorem C7_counterexample :
    promptC7.list.Items = some ([], NotFound) ∧
    Prompt.mainloopKey matcher0 promptC7 Enter = StepResult.cont promptC7 ∧
    ¬ ∃ e, Prompt.mainloopKey matcher0 promptC7 Enter = StepResult.quit e := by
  refine ⟨by decide, rfl, ?_⟩
  rintro ⟨e, h⟩
  exact StepResult.noConfusion (h.symm.trans rfl)

/-- C7 (amended).  Enter (or NewLine) with no active item is a no-op for that
keystroke: the loop continues with the engine state unchanged and no error.
`Prompt.Selection()` does return the "item not found" error in that
situation, and when an active item exists a failing selection handler
terminates the loop with its error. -/
theorem C7_thm {α : Type} [DecidableEq α] :
    (∀ (matcher : Matcher α) (p : Prompt α) (w : List α),
      p.list.Items = some (w, NotFound) →
        p.mainloopKey matcher Enter = StepResult.cont p ∧
        p.mainloopKey matcher NewLine = StepResult.cont p) ∧
    (∀ (p : Prompt α) (w : List α),
      p.list.Items = some (w, NotFound) →
        p.Selection = some (Except.error "item not found")) ∧
    (∀ (matcher : Matcher α) (p : Prompt α) (w : List α) (i : Int) (it : α)
        (e : String),
      p.list.Items = some (w, i) → i ≠ NotFound → sliceGet? w i = some it →
      p.selectionHandler it = some e →
        p.mainloopKey matcher Enter = StepResult.quit (some e)) := by
  refine ⟨fun matcher p w h => ⟨?_, ?_⟩, fun p w h => ?_,
    fun matcher p w i it e h hi hw hs => ?_⟩
  · unfold Prompt.mainloopKey
    rw [if_neg (by decide), if_pos (Or.inl rfl), h]
    dsimp only
    rw [if_pos rfl]
  · unfold Prompt.mainloopKey
    rw [if_neg (by decide), if_pos (Or.inr rfl), h]
    dsimp only
    rw [if_pos rfl]
  · unfold Prompt.Selection
    rw [h]
    dsimp only
    rw [if_pos rfl]
  · unfold Prompt.mainloopKey
    rw [if_neg (by decide), if_pos (Or.inl rfl), h]
    dsimp only
    rw [if_neg hi, hw]
    dsimp only
    rw [hs]

/-- C7, witness: the amended theorem applied to the empty-window engine state
and to the one-item state with a failing handler. -/
theorem C7_witness :
    promptC7.list.Items = some ([], NotFound) ∧
    Prompt.mainloopKey matcher0 promptC7 NewLine = StepResult.cont promptC7 ∧
    Prompt.Selection promptC7 = some (Except.error "item not found") :=
  ⟨by decide,
    ((C7_thm (α := Nat)).1 matcher0 promptC7 [] (by decide)).2,
    (C7_thm (α := Nat)).2.1 promptC7 [] (by decide)⟩

/-- C8, counterexample.  `promptC8` is in Help mode, yet pressing Enter does
not return it to Normal mode: `mainloop` intercepts Enter before `onKey`'s
help check, dispatches the selection handler on the active item, and the
handler's failure terminates the loop. -/
theorem C8_counterexample :
    promptC8.helpMode = true ∧
    Prompt.mainloopKey matcher0 promptC8 Enter =
      StepResult.quit (some "boom") :=
  ⟨rfl, rfl⟩

/-- C8 (amended).  While the engine is in Help mode, any keystroke other than
Enter, NewLine and the hard interrupts Ctrl-C/Ctrl-D returns the engine to
Normal mode and has no other effect; those four keys bypass the help check in
`onKey` because `mainloop` handles them first. -/
theorem C8_thm {α : Type} [DecidableEq α] (matcher : Matcher α) (p : Prompt α)
    (key : Char) (hh : p.helpMode = true) (h1 : key ≠ KeyCtrlC)
    (h2 : key ≠ KeyCtrlD) (h3 : key ≠ Enter) (h4 : key ≠ NewLine) :
    p.mainloopKey matcher key = StepResult.cont { p with helpMode := false } := by
  unfold Prompt.mainloopKey Prompt.onKey
  rw [if_neg (by rintro (rfl | rfl) <;> simp_all), if_neg (by rintro (rfl | rfl) <;> simp_all), if_pos hh]

/-- C8, witness: the amended theorem applied to the Help-mode engine state
with the ordinary key `z`. -/
theorem C8_witness :
    promptC8.helpMode = true ∧
    Prompt.mainloopKey matcher0 promptC8 'z' =
      StepResult.cont { promptC8 with helpMode := false } :=
  ⟨rfl, C8_thm matcher0 promptC8 'z' rfl (by decide) (by decide) (by decide)
    (by decide)⟩

/-- C10 (confirmed).  In Normal mode (not help, not search input), a key that
matches no arrow key, not `/` or `?`, and no enabled vim letter, reaches the
key-binding lookup only through the `Items()` guard: when the window reports
`NotFound`, `onKey` returns the state unchanged with a nil error for *every*
binding table — no handler is consulted — and, for keys that `mainloop` does
not intercept, the loop simply continues. -/
theorem C10_thm {α : Type} [DecidableEq α] (matcher : Matcher α)
    (p : Prompt α) (key : Char) (w : List α) (hhelp : p.helpMode = false)
    (hinput : p.inputMode = false) (k1 : key ≠ ArrowUp) (k2 : key ≠ ArrowDown)
    (k3 : key ≠ ArrowLeft) (k4 : key ≠ ArrowRight) (k5 : key ≠ '/')
    (k6 : key ≠ '?')
    (kv : p.vim = true → key ≠ 'k' ∧ key ≠ 'j' ∧ key ≠ 'h' ∧ key ≠ 'l')
    (hnf : p.list.Items = some (w, NotFound)) :
    p.onKey matcher key = some (p, none) ∧
    (key ≠ KeyCtrlC → key ≠ KeyCtrlD → key ≠ Enter → key ≠ NewLine →
      p.mainloopKey matcher key = StepResult.cont p) := by
  have honk : p.onKey matcher key = some (p, none) := by
    unfold Prompt.onKey
    rw [if_neg (by simp [hhelp]), if_neg k1, if_neg k2, if_neg k3, if_neg k4,
      if_neg k5, if_neg (by simp [hinput]), if_neg k6,
      if_neg (by rintro ⟨hv, hk⟩; exact (kv hv).1 hk),
      if_neg (by rintro ⟨hv, hk⟩; exact (kv hv).2.1 hk),
      if_neg (by rintro ⟨hv, hk⟩; exact (kv hv).2.2.1 hk),
      if_neg (by rintro ⟨hv, hk⟩; exact (kv hv).2.2.2 hk), hnf]
    dsimp only
    rw [if_pos rfl]
  refine ⟨honk, fun c1 c2 c3 c4 => ?_⟩
  unfold Prompt.mainloopKey
  rw [if_neg (by rintro (rfl | rfl) <;> simp_all),
    if_neg (by rintro (rfl | rfl) <;> simp_all), honk]

/-- C10, witness: pressing `x` on `promptC10` — whose binding table maps `x`
to a failing handler — over an empty window returns nil without invoking the
handler. -/
theorem C10_witness :
    promptC10.list.Items = some ([], NotFound) ∧
    Prompt.onKey matcher0 promptC10 'x' = some (promptC10, none) :=
  ⟨by decide,
    (C10_thm matcher0 promptC10 'x' [] rfl rfl (by decide) (by decide)
      (by decide) (by decide) (by decide) (by decide) (fun _ => by decide)
      (by decide)).1⟩

end Gitin
